import Mathlib

/-!
# HttpDump: request dumping server with a configurable canned response

A shallow embedding of `main.go`.  The program is a thin layer over two
libraries that are not part of the repository: the Go standard library
(`strings`, `fmt`, `net/http`, `io/ioutil`, `log`, `flag`, `crypto/tls`) and
the routing library `github.com/hoisie/web`.

* Go strings are modelled by `String` (the texts are taken to be valid
  UTF-8); `len(s) > 0` is `s.length > 0` (both hold exactly for the
  non-empty strings).
* Go maps (`ctx.Params`, `http.Header`) are modelled by the list of their
  entries in the order in which `range` visits them.
* `web.Context` is modelled by the request data the handlers read together
  with the list of method calls made on it so far, in order; every method
  of the library appends its own call to that list.
* Output is threaded explicitly: the arguments of the builtin `println`, one
  entry per call, and the messages handed to `log.Printf`.
* `log.Fatal` exits the process and `panic` unwinds it: both end the
  computation with a result that carries no further steps.
-/

namespace httpdump

/-! ## Library primitives -/

namespace strings

/-- Go `strings.Trim(s, cutset)`: the string `s` with all leading and all
trailing characters contained in `cutset` removed. -/
def Trim (s cutset : String) : String :=
  String.mk ((s.data.rdropWhile (fun c => cutset.data.contains c)).dropWhile
    (fun c => cutset.data.contains c))

end strings

namespace http

/-- Go `http.Header`, a map from a header name to its values, as the list of
its entries in iteration order.  Names are compared as given: the names the
program sets are already in canonical form. -/
abbrev Header := List (String × List String)

/-- Go `Header.Set`: the values of `key` are replaced by the single `value`. -/
def Header.Set (h : Header) (key value : String) : Header :=
  if h.any (fun e => e.1 == key) then
    h.map (fun e => if e.1 == key then (key, [value]) else e)
  else h ++ [(key, [value])]

/-- Go `Header.Add`: `value` is appended to the values of `key`. -/
def Header.Add (h : Header) (key value : String) : Header :=
  if h.any (fun e => e.1 == key) then
    h.map (fun e => if e.1 == key then (key, e.2 ++ [value]) else e)
  else h ++ [(key, [value])]

/-- Go `Header.Values`: all values of `key`, none when the name is absent. -/
def Header.Values (h : Header) (key : String) : List String :=
  (h.lookup key).getD []

/-- The fields of Go `http.Request` that the program reads.  `Body` is the
result of reading the body stream to its end: the bytes read, or the text
of the read error. -/
structure Request where
  RemoteAddr : String
  RequestURI : String
  Header : Header
  Body : Except String String

end http

namespace web

/-- The methods of `web.Context` that the program calls, with their
arguments. -/
inductive Call where
  | Redirect (status : Int) (url : String)
  | NotFound (message : String)
  | NotModified
  | Forbidden
  | Unauthorized
  | Abort (status : Int) (body : String)
  | SetHeader (hdr val : String) (unique : Bool)
  deriving DecidableEq, Repr

/-- Go `web.Context`: the request, the parsed query parameters, and the
calls made on the context so far. -/
structure Context where
  Request : http.Request
  Params : List (String × String)
  calls : List Call

/-- The context the library hands to a handler for one incoming request: no
call has been made on it yet. -/
def newContext (req : http.Request) (params : List (String × String)) : Context :=
  { Request := req, Params := params, calls := [] }

/-- Library method `ctx.Redirect(status, url)`. -/
def Context.Redirect (ctx : Context) (status : Int) (url : String) : Context :=
  { ctx with calls := ctx.calls ++ [Call.Redirect status url] }

/-- Library method `ctx.NotFound(message)`. -/
def Context.NotFound (ctx : Context) (message : String) : Context :=
  { ctx with calls := ctx.calls ++ [Call.NotFound message] }

/-- Library method `ctx.NotModified()`. -/
def Context.NotModified (ctx : Context) : Context :=
  { ctx with calls := ctx.calls ++ [Call.NotModified] }

/-- Library method `ctx.Forbidden()`. -/
def Context.Forbidden (ctx : Context) : Context :=
  { ctx with calls := ctx.calls ++ [Call.Forbidden] }

/-- Library method `ctx.Unauthorized()`. -/
def Context.Unauthorized (ctx : Context) : Context :=
  { ctx with calls := ctx.calls ++ [Call.Unauthorized] }

/-- Library method `ctx.Abort(status, body)`. -/
def Context.Abort (ctx : Context) (status : Int) (body : String) : Context :=
  { ctx with calls := ctx.calls ++ [Call.Abort status body] }

/-- Library method `ctx.SetHeader(hdr, val, unique)`. -/
def Context.SetHeader (ctx : Context) (hdr val : String) (unique : Bool) : Context :=
  { ctx with calls := ctx.calls ++ [Call.SetHeader hdr val unique] }

/-- The status dispatch calls: every call except `SetHeader`. -/
def Call.isDispatch : Call → Bool
  | Call.SetHeader _ _ _ => false
  | _ => true

end web

/-- Output of the process: the arguments of the builtin `println`, one entry
per call, and the messages handed to `log.Printf`. -/
structure Console where
  printed : List String
  logged : List String
  deriving DecidableEq, Repr

/-- Builtin `println(s)`. -/
def Console.println (con : Console) (s : String) : Console :=
  { con with printed := con.printed ++ [s] }

/-- What a handler leaves behind: the string it returns, the context after
its calls, and the output after its writes. -/
structure Result where
  ret : String
  ctx : web.Context
  con : Console

/-! ## The program -/

/-- The configuration struct `HTTPDump`. -/
structure HTTPDump where
  resp : String
  respFile : String
  respCode : Int
  redirect : String
  tls : Bool
  tlsCert : String
  tlsKey : String
  ip : String
  port : String
  deriving DecidableEq, Repr

/-- What the program needs from its surroundings: `ioutil.ReadFile` (the file
content or the error text) and `tls.X509KeyPair` (whether the pair parses,
with the error text when it does not). -/
structure Env where
  ReadFile : String → Except String String
  X509KeyPair : String → String → Except String Unit

namespace HTTPDump

/-- `getFile`: the content of the file, or a panic with the read error. -/
def getFile (_d : HTTPDump) (env : Env) (path : String) : Except String String :=
  match env.ReadFile path with
  | Except.error err => Except.error err
  | Except.ok file => Except.ok file

/-- `getParams`: every entry is written as `key=value&` in iteration order,
and the buffer is trimmed with the cutset `&`. -/
def getParams (_d : HTTPDump) (params : List (String × String)) : String :=
  strings.Trim (params.foldl (fun b kv => b ++ (kv.1 ++ "=" ++ kv.2 ++ "&")) "") "&"

/-- `getBody`: the body read to its end; a read error is logged and the
empty string is returned. -/
def getBody (_d : HTTPDump) (requestBody : Except String String) (con : Console) :
    String × Console :=
  match requestBody with
  | Except.error err => ("", { con with logged := con.logged ++ ["Error reading body: " ++ err] })
  | Except.ok body => (body, con)

/-- `getHeaders`: one line `name: [v1 v2 ...]` per header, the values
formatted as `fmt` formats a slice of strings under `%s`. -/
def getHeaders (_d : HTTPDump) (headers : http.Header) : String :=
  headers.foldl (fun b kv => b ++ (kv.1 ++ ": " ++ ("[" ++ " ".intercalate kv.2 ++ "]") ++ "\n")) ""

/-- `setResponseCode`: the switch on `d.respCode`. -/
def setResponseCode (d : HTTPDump) (ctx : web.Context) : web.Context :=
  if d.respCode = 301 ∨ d.respCode = 302 then ctx.Redirect d.respCode d.redirect
  else if d.respCode = 404 then ctx.NotFound d.resp
  else if d.respCode = 304 then ctx.NotModified
  else if d.respCode = 403 then ctx.Forbidden
  else if d.respCode = 401 then ctx.Unauthorized
  else ctx.Abort d.respCode d.resp

/-- `handleGet`: the GET request handler. -/
def handleGet (d : HTTPDump) (ctx : web.Context) (_val : String) (con : Console) : Result :=
  let urlString := ctx.Request.RemoteAddr ++ " - " ++ ctx.Request.RequestURI
  let params := d.getParams ctx.Params
  let params := if params.length > 0 then "?" ++ params else params
  let con := con.println (urlString ++ params)
  let con := con.println (d.getHeaders ctx.Request.Header)
  let ctx := if d.respCode ≠ 200 then d.setResponseCode ctx else ctx
  { ret := d.resp, ctx := ctx, con := con }

/-- `handleBody`: the handler for requests expected to have a body.  The
string returned by the inner `handleGet` call is dropped; its calls on the
context and its output stay. -/
def handleBody (d : HTTPDump) (ctx : web.Context) (val : String) (con : Console) : Result :=
  let r := d.handleGet ctx val con
  let ctx := r.ctx
  let (body, con) := d.getBody ctx.Request.Body r.con
  let con := con.println body
  let ctx := ctx.SetHeader "Content-Type" "application/json;charset=utf-8" true
  let ctx := if d.respCode ≠ 200 then d.setResponseCode ctx else ctx
  { ret := d.resp, ctx := ctx, con := con }

/-- `handleCORS`: the OPTIONS handler. -/
def handleCORS (_d : HTTPDump) (ctx : web.Context) (_val : String) (con : Console) : Result :=
  let ctx := ctx.SetHeader "Access-Control-Allow-Origin" "*" true
  let ctx := ctx.SetHeader "Access-Control-Allow-Methods" "POST, GET, PUT, DELETE, OPTIONS" true
  let ctx := ctx.SetHeader "Access-Control-Max-Age" "86400" true
  let ctx := ctx.SetHeader "Access-Control-Allow-Credentials" "true" true
  let ctx := ctx.SetHeader "Access-Control-Allow-Headers" "*" true
  { ret := "", ctx := ctx, con := con }

end HTTPDump

/-- One registration with the routing library: the method, the path pattern
and the handler, which is the method value bound to the receiver as it is
when the registration is made. -/
structure Route where
  method : String
  pattern : String
  handler : web.Context → String → Console → Result

/-- How `start` ends: a panic in `getFile`, a key pair that does not parse
(the error is printed and `start` returns), or a listener on the address. -/
inductive Outcome where
  | panicked (err : String)
  | keyPairError (err : String)
  | RunTLS (addr : String)
  | Run (addr : String)
  deriving DecidableEq, Repr

/-- The registrations made by `start` and the way it ends. -/
structure Started where
  routes : List Route
  outcome : Outcome

/-- `start`: load the response file, register the five handlers, set up TLS
and run the listener. -/
def HTTPDump.start (d : HTTPDump) (env : Env) : Started :=
  let loaded : Except String HTTPDump :=
    if d.respFile.length > 0 then
      match d.getFile env d.respFile with
      | Except.error err => Except.error err
      | Except.ok file => Except.ok { d with resp := file }
    else Except.ok d
  match loaded with
  | Except.error err => { routes := [], outcome := Outcome.panicked err }
  | Except.ok d =>
    let routes : List Route :=
      [ { method := "GET", pattern := "/(.*)", handler := d.handleGet },
        { method := "POST", pattern := "/(.*)", handler := d.handleBody },
        { method := "PUT", pattern := "/(.*)", handler := d.handleBody },
        { method := "DELETE", pattern := "/(.*)", handler := d.handleBody },
        { method := "OPTIONS", pattern := "/(.*)", handler := d.handleCORS } ]
    if d.tls then
      match d.getFile env d.tlsCert with
      | Except.error err => { routes := routes, outcome := Outcome.panicked err }
      | Except.ok cert =>
        match d.getFile env d.tlsKey with
        | Except.error err => { routes := routes, outcome := Outcome.panicked err }
        | Except.ok key =>
          match env.X509KeyPair cert key with
          | Except.error err => { routes := routes, outcome := Outcome.keyPairError err }
          | Except.ok _ => { routes := routes, outcome := Outcome.RunTLS (d.ip ++ ":" ++ d.port) }
    else { routes := routes, outcome := Outcome.Run (d.ip ++ ":" ++ d.port) }

/-- The values of the command line flags after `flag.Parse()`. -/
structure Flags where
  response : String
  responseFile : String
  responseCode : Int
  redirect : String
  tls : Bool
  tlsKey : String
  tlsCert : String
  ip : String
  port : String
  deriving DecidableEq, Repr

/-- How `main` ends: `log.Fatal` after the usage text was printed, or the
call `d.start()` on the configuration `d`. -/
inductive MainResult where
  | fatal (printed : List String) (msg : String)
  | started (d : HTTPDump) (s : Started)

/-- `main` after `flag.Parse()`; `defaults` is the text `flag.PrintDefaults()`
prints. -/
def main (f : Flags) (defaults : String) (env : Env) : MainResult :=
  if f.tls && (f.tlsKey == "" || f.tlsCert == "") then
    MainResult.fatal ["Usage:", defaults, ""]
      "Error: Unable to use TLS, the tlskey or tlscert flags are missing"
  else if (f.responseCode == 301 || f.responseCode == 302) && f.redirect == "" then
    MainResult.fatal ["Usage:", defaults, ""]
      "Error: Must specify redirect URL with -redirect"
  else
    let respCode : Int := if f.redirect != "" then 302 else f.responseCode
    let d : HTTPDump :=
      { resp := f.response, respFile := f.responseFile, respCode := respCode,
        redirect := f.redirect, tls := f.tls, tlsKey := f.tlsKey, tlsCert := f.tlsCert,
        ip := f.ip, port := f.port }
    MainResult.started d (d.start env)

/-! ## What the handler hands to the client -/

/-- The body text the program passes to a call: the message of `NotFound`
and the body of `Abort`.  The other calls are passed no body text. -/
def web.Call.bodyText : web.Call → String
  | web.Call.NotFound message => message
  | web.Call.Abort _ body => body
  | _ => ""

/-- Modelled from the spec: the response writer of the routing library is
not part of the repository.  The body text a handler supplies for one
request is the text it passes to the dispatch calls (not-found "using
responseBody as the not-found body content", abort "with responseBody as
the body"), in call order, followed by the string it returns (which is sent
"as the HTTP body").  Text the library writes of its own accord, such as
the notice of a redirect, is not counted. -/
def Result.body (r : Result) : String :=
  String.join (r.ctx.calls.map web.Call.bodyText) ++ r.ret

/-- Modelled from the spec: the response writer of the routing library is
not part of the repository.  The header map as it stands when the status
line and the header block are written: every dispatch call responds with
its status and so writes them, and the writer ignores changes made to the
header map afterwards.  Only `SetHeader` calls of the handler made before
the first dispatch call therefore count; when the handler makes no dispatch
call, the block is written with the returned body, after all its
`SetHeader` calls.  Headers the library adds are not tracked. -/
def web.sentHeader (h : http.Header) : List web.Call → http.Header
  | [] => h
  | c :: rest =>
    match c with
    | web.Call.SetHeader hdr val unique =>
      web.sentHeader (if unique then h.Set hdr val else h.Add hdr val) rest
    | _ => h

/-- The header values set by the handler that are in effect on the response
of one request. -/
def Result.header (r : Result) : http.Header :=
  web.sentHeader [] r.ctx.calls

/-- The reading of the query string in the specification: the `key=value`
pairs in iteration order, joined by `&`. -/
def joinedQuery (params : List (String × String)) : String :=
  "&".intercalate (params.map (fun kv => kv.1 ++ "=" ++ kv.2))

/-! ## Derived definitions used in the statements -/

/-- The call the switch of `setResponseCode` selects for a configuration. -/
def HTTPDump.dispatchCall (d : HTTPDump) : web.Call :=
  if d.respCode = 301 ∨ d.respCode = 302 then web.Call.Redirect d.respCode d.redirect
  else if d.respCode = 404 then web.Call.NotFound d.resp
  else if d.respCode = 304 then web.Call.NotModified
  else if d.respCode = 403 then web.Call.Forbidden
  else if d.respCode = 401 then web.Call.Unauthorized
  else web.Call.Abort d.respCode d.resp

/-- The registrations `start` makes once the response body is resolved. -/
def routesOf (d : HTTPDump) : List Route :=
  [ { method := "GET", pattern := "/(.*)", handler := d.handleGet },
    { method := "POST", pattern := "/(.*)", handler := d.handleBody },
    { method := "PUT", pattern := "/(.*)", handler := d.handleBody },
    { method := "DELETE", pattern := "/(.*)", handler := d.handleBody },
    { method := "OPTIONS", pattern := "/(.*)", handler := d.handleCORS } ]

/-! ## Sample data -/

/-- A request from a local client with one header and a JSON body. -/
def sampleRequest : http.Request :=
  { RemoteAddr := "127.0.0.1:5000", RequestURI := "/foo/bar?x=1",
    Header := [("Accept", ["*/*"])], Body := Except.ok "\x7b\"a\":1\x7d" }

/-- The context of `sampleRequest`, with its one query parameter. -/
def sampleContext : web.Context :=
  web.newContext sampleRequest [("x", "1")]

/-- A configuration answering with the body `x` and the given status. -/
def sampleConfig (code : Int) : HTTPDump :=
  { resp := "x", respFile := "", respCode := code, redirect := "http://e/", tls := false,
    tlsCert := "", tlsKey := "", ip := "0.0.0.0", port := "9999" }

/-- An empty console. -/
def emptyConsole : Console :=
  { printed := [], logged := [] }

/-- Surroundings in which every file holds the text `file` and every key
pair parses. -/
def sampleEnv : Env :=
  { ReadFile := fun _ => Except.ok "file", X509KeyPair := fun _ _ => Except.ok () }

/-- Flags that enable TLS with both paths given and ask for status 301 with
a redirect target. -/
def sampleFlags : Flags :=
  { response := "flag", responseFile := "", responseCode := 301, redirect := "http://e/",
    tls := true, tlsKey := "key.pem", tlsCert := "cert.pem", ip := "0.0.0.0", port := "9999" }

/-- The configuration `main` builds from `sampleFlags`. -/
def sampleFlagsConfig : HTTPDump :=
  { resp := "flag", respFile := "", respCode := 302, redirect := "http://e/", tls := true,
    tlsCert := "cert.pem", tlsKey := "key.pem", ip := "0.0.0.0", port := "9999" }

/-- A configuration with the response flag `x` and the response file
`body.txt`. -/
def sampleFileConfig : HTTPDump :=
  { resp := "x", respFile := "body.txt", respCode := 200, redirect := "", tls := false,
    tlsCert := "", tlsKey := "", ip := "0.0.0.0", port := "9999" }

/-! ## Theorems -/

/-- C2: with `respCode = 200`, `handleGet` makes no call on the context (the
context is returned as it was received) and returns the configured body,
which on a fresh context is the whole body text supplied for the request. -/
theorem handleGet_ok_returns_resp (d : HTTPDump) (ctx : web.Context) (val : String)
    (con : Console) (h : d.respCode = 200) :
    (d.handleGet ctx val con).ctx = ctx ∧ (d.handleGet ctx val con).ret = d.resp ∧
      (d.handleGet (web.newContext ctx.Request ctx.Params) val con).body = d.resp := by
  simp [HTTPDump.handleGet, h, Result.body, web.newContext, String.join]

/-- C2 at the sample request: a GET on `/foo/bar?x=1` leaves the context
without calls and returns `x`. -/
theorem handleGet_ok_returns_resp_witness :
    ((sampleConfig 200).handleGet sampleContext "foo/bar" emptyConsole).ctx.calls = [] ∧
      ((sampleConfig 200).handleGet sampleContext "foo/bar" emptyConsole).ret = "x" :=
  ⟨congrArg web.Context.calls
      (handleGet_ok_returns_resp (sampleConfig 200) sampleContext "foo/bar" emptyConsole rfl).1,
    (handleGet_ok_returns_resp (sampleConfig 200) sampleContext "foo/bar" emptyConsole
      rfl).2.1⟩

/-- The context after `setResponseCode` holds exactly one more call, and
that call is a dispatch call. -/
theorem setResponseCode_one_call (d : HTTPDump) (ctx : web.Context) :
    ∃ c : web.Call, c.isDispatch = true ∧
      (d.setResponseCode ctx).calls = ctx.calls ++ [c] ∧
      (d.setResponseCode ctx).Request = ctx.Request ∧
      (d.setResponseCode ctx).Params = ctx.Params := by
  unfold HTTPDump.setResponseCode
  split_ifs
  · exact ⟨web.Call.Redirect d.respCode d.redirect, rfl, rfl, rfl, rfl⟩
  · exact ⟨web.Call.NotFound d.resp, rfl, rfl, rfl, rfl⟩
  · exact ⟨web.Call.NotModified, rfl, rfl, rfl, rfl⟩
  · exact ⟨web.Call.Forbidden, rfl, rfl, rfl, rfl⟩
  · exact ⟨web.Call.Unauthorized, rfl, rfl, rfl, rfl⟩
  · exact ⟨web.Call.Abort d.respCode d.resp, rfl, rfl, rfl, rfl⟩

/-- C4: `setResponseCode` follows the dispatch table on every integer
`respCode`: 301 and 302 redirect to `redirect` with that code, 304 is
not-modified, 403 forbidden, 401 unauthorized, 404 not-found with `resp` as
the message, and every other value aborts with that value and `resp` as the
body; in each case exactly this one call is added to the context. -/
theorem setResponseCode_table (d : HTTPDump) (ctx : web.Context) :
    (d.respCode = 301 ∨ d.respCode = 302 →
      (d.setResponseCode ctx).calls = ctx.calls ++ [web.Call.Redirect d.respCode d.redirect]) ∧
    (d.respCode = 304 →
      (d.setResponseCode ctx).calls = ctx.calls ++ [web.Call.NotModified]) ∧
    (d.respCode = 403 →
      (d.setResponseCode ctx).calls = ctx.calls ++ [web.Call.Forbidden]) ∧
    (d.respCode = 401 →
      (d.setResponseCode ctx).calls = ctx.calls ++ [web.Call.Unauthorized]) ∧
    (d.respCode = 404 →
      (d.setResponseCode ctx).calls = ctx.calls ++ [web.Call.NotFound d.resp]) ∧
    (d.respCode ∉ [301, 302, 304, 403, 401, 404] →
      (d.setResponseCode ctx).calls = ctx.calls ++ [web.Call.Abort d.respCode d.resp]) ∧
    (∃ c : web.Call, c.isDispatch = true ∧
      (d.setResponseCode ctx).calls = ctx.calls ++ [c]) := by
  refine ⟨?_, ?_, ?_, ?_, ?_, ?_, ?_⟩
  · intro h
    simp [HTTPDump.setResponseCode, h, web.Context.Redirect]
  · intro h
    simp [HTTPDump.setResponseCode, h, web.Context.NotModified]
  · intro h
    simp [HTTPDump.setResponseCode, h, web.Context.Forbidden]
  · intro h
    simp [HTTPDump.setResponseCode, h, web.Context.Unauthorized]
  · intro h
    simp [HTTPDump.setResponseCode, h, web.Context.NotFound]
  · intro h
    simp only [List.mem_cons, List.mem_singleton, List.not_mem_nil, or_false, not_or] at h
    obtain ⟨h1, h2, h3, h4, h5, h6⟩ := h
    simp [HTTPDump.setResponseCode, h1, h2, h3, h4, h5, h6, web.Context.Abort]
  · obtain ⟨c, hc, hcalls, _, _⟩ := setResponseCode_one_call d ctx
    exact ⟨c, hc, hcalls⟩

/-- C4 at seven configurations, one for each row of the table (301, 302,
304, 403, 401, 404) and the codes 500 and 200 for the last row. -/
theorem setResponseCode_table_witness :
    ((sampleConfig 301).setResponseCode sampleContext).calls
        = [web.Call.Redirect 301 "http://e/"] ∧
    ((sampleConfig 302).setResponseCode sampleContext).calls
        = [web.Call.Redirect 302 "http://e/"] ∧
    ((sampleConfig 304).setResponseCode sampleContext).calls = [web.Call.NotModified] ∧
    ((sampleConfig 403).setResponseCode sampleContext).calls = [web.Call.Forbidden] ∧
    ((sampleConfig 401).setResponseCode sampleContext).calls = [web.Call.Unauthorized] ∧
    ((sampleConfig 404).setResponseCode sampleContext).calls = [web.Call.NotFound "x"] ∧
    ((sampleConfig 500).setResponseCode sampleContext).calls = [web.Call.Abort 500 "x"] ∧
    ((sampleConfig 200).setResponseCode sampleContext).calls = [web.Call.Abort 200 "x"] :=
  ⟨(setResponseCode_table (sampleConfig 301) sampleContext).1 (Or.inl rfl),
    (setResponseCode_table (sampleConfig 302) sampleContext).1 (Or.inr rfl),
    (setResponseCode_table (sampleConfig 304) sampleContext).2.1 rfl,
    (setResponseCode_table (sampleConfig 403) sampleContext).2.2.1 rfl,
    (setResponseCode_table (sampleConfig 401) sampleContext).2.2.2.1 rfl,
    (setResponseCode_table (sampleConfig 404) sampleContext).2.2.2.2.1 rfl,
    (setResponseCode_table (sampleConfig 500) sampleContext).2.2.2.2.2.1 (by decide),
    (setResponseCode_table (sampleConfig 200) sampleContext).2.2.2.2.2.1 (by decide)⟩

/-- C8: `handleCORS` adds exactly the five `SetHeader` calls to the context,
in source order and each with `unique = true`, returns the empty string and
leaves the output as it was, whatever the configuration and the request. -/
theorem handleCORS_sets_five_headers (d : HTTPDump) (ctx : web.Context) (val : String)
    (con : Console) :
    (d.handleCORS ctx val con).ctx.calls = ctx.calls ++
      [ web.Call.SetHeader "Access-Control-Allow-Origin" "*" true,
        web.Call.SetHeader "Access-Control-Allow-Methods" "POST, GET, PUT, DELETE, OPTIONS" true,
        web.Call.SetHeader "Access-Control-Max-Age" "86400" true,
        web.Call.SetHeader "Access-Control-Allow-Credentials" "true" true,
        web.Call.SetHeader "Access-Control-Allow-Headers" "*" true ] ∧
    (d.handleCORS ctx val con).ctx.Request = ctx.Request ∧
    (d.handleCORS ctx val con).ctx.Params = ctx.Params ∧
    (d.handleCORS ctx val con).ret = "" ∧
    (d.handleCORS ctx val con).con = con ∧
    (∀ c ∈ (d.handleCORS ctx val con).ctx.calls, c ∉ ctx.calls → c.isDispatch = false) ∧
    (ctx.calls = [] → (d.handleCORS ctx val con).header =
      [ ("Access-Control-Allow-Origin", ["*"]),
        ("Access-Control-Allow-Methods", ["POST, GET, PUT, DELETE, OPTIONS"]),
        ("Access-Control-Max-Age", ["86400"]),
        ("Access-Control-Allow-Credentials", ["true"]),
        ("Access-Control-Allow-Headers", ["*"]) ]) := by
  refine ⟨?_, rfl, rfl, rfl, rfl, ?_, ?_⟩
  · simp [HTTPDump.handleCORS, web.Context.SetHeader]
  · intro c hc hnot
    simp only [HTTPDump.handleCORS, web.Context.SetHeader, List.append_assoc, List.mem_append,
      List.mem_cons, List.mem_singleton, List.not_mem_nil, or_false] at hc
    rcases hc with hc | hc | hc | hc | hc | hc
    · exact absurd hc hnot
    all_goals subst hc; rfl
  · intro h
    simp only [Result.header, HTTPDump.handleCORS, web.Context.SetHeader, h]
    decide

/-- C8 at the sample request under a configuration with status 404: the
five headers are set and in effect, nothing is returned, printed or
dispatched. -/
theorem handleCORS_sets_five_headers_witness :
    ((sampleConfig 404).handleCORS sampleContext "" emptyConsole).header =
      [ ("Access-Control-Allow-Origin", ["*"]),
        ("Access-Control-Allow-Methods", ["POST, GET, PUT, DELETE, OPTIONS"]),
        ("Access-Control-Max-Age", ["86400"]),
        ("Access-Control-Allow-Credentials", ["true"]),
        ("Access-Control-Allow-Headers", ["*"]) ] ∧
    ((sampleConfig 404).handleCORS sampleContext "" emptyConsole).ret = "" ∧
    ((sampleConfig 404).handleCORS sampleContext "" emptyConsole).con = emptyConsole :=
  ⟨(handleCORS_sets_five_headers (sampleConfig 404) sampleContext "" emptyConsole).2.2.2.2.2.2 rfl,
    (handleCORS_sets_five_headers (sampleConfig 404) sampleContext "" emptyConsole).2.2.2.1,
    (handleCORS_sets_five_headers (sampleConfig 404) sampleContext "" emptyConsole).2.2.2.2.1⟩

/-- The selected call is a dispatch call. -/
theorem dispatchCall_isDispatch (d : HTTPDump) : d.dispatchCall.isDispatch = true := by
  unfold HTTPDump.dispatchCall
  split_ifs <;> rfl

/-- The calls on the context after `setResponseCode`. -/
theorem setResponseCode_calls (d : HTTPDump) (ctx : web.Context) :
    (d.setResponseCode ctx).calls = ctx.calls ++ [d.dispatchCall] := by
  unfold HTTPDump.setResponseCode HTTPDump.dispatchCall
  split_ifs <;> rfl

/-- The handlers `handleGet` and `handleBody` return `d.resp` for every
configuration. -/
theorem handlers_ret (d : HTTPDump) (ctx : web.Context) (val : String) (con : Console) :
    (d.handleGet ctx val con).ret = d.resp ∧ (d.handleBody ctx val con).ret = d.resp :=
  ⟨rfl, rfl⟩

/-- With a status other than 200, `handleGet` makes the selected dispatch
call once. -/
theorem handleGet_calls (d : HTTPDump) (ctx : web.Context) (val : String) (con : Console)
    (h : d.respCode ≠ 200) :
    (d.handleGet ctx val con).ctx.calls = ctx.calls ++ [d.dispatchCall] := by
  simp [HTTPDump.handleGet, h, setResponseCode_calls]

/-- With a status other than 200, `handleBody` makes the selected dispatch
call (inside `handleGet`), then sets the content type, then makes the
dispatch call a second time. -/
theorem handleBody_calls (d : HTTPDump) (ctx : web.Context) (val : String) (con : Console)
    (h : d.respCode ≠ 200) :
    (d.handleBody ctx val con).ctx.calls = ctx.calls ++
      [d.dispatchCall,
        web.Call.SetHeader "Content-Type" "application/json;charset=utf-8" true,
        d.dispatchCall] := by
  simp [HTTPDump.handleBody, HTTPDump.handleGet, h, setResponseCode_calls,
    web.Context.SetHeader]

/-- With status 200, `handleBody` only sets the content type. -/
theorem handleBody_calls_ok (d : HTTPDump) (ctx : web.Context) (val : String) (con : Console)
    (h : d.respCode = 200) :
    (d.handleBody ctx val con).ctx.calls = ctx.calls ++
      [web.Call.SetHeader "Content-Type" "application/json;charset=utf-8" true] := by
  simp [HTTPDump.handleBody, HTTPDump.handleGet, h, web.Context.SetHeader]

/-- C3: with `respCode = 404` the body text supplied for one request is the
configured body twice under `handleGet` (once as the not-found message,
once as the returned string) and three times under `handleBody` (the
not-found message of the inner `handleGet`, the one of `handleBody`, and the
returned string). -/
theorem notFound_body_repeated (d : HTTPDump) (req : http.Request)
    (params : List (String × String)) (val : String) (con : Console) (h : d.respCode = 404) :
    (d.handleGet (web.newContext req params) val con).body = d.resp ++ d.resp ∧
      (d.handleBody (web.newContext req params) val con).body
        = d.resp ++ d.resp ++ d.resp := by
  have h200 : d.respCode ≠ 200 := by rw [h]; decide
  have hcall : d.dispatchCall = web.Call.NotFound d.resp := by
    simp [HTTPDump.dispatchCall, h]
  constructor
  · simp [Result.body, handleGet_calls d _ val con h200, hcall, web.newContext,
      web.Call.bodyText, String.join, (handlers_ret d _ val con).1]
  · simp [Result.body, handleBody_calls d _ val con h200, hcall, web.newContext,
      web.Call.bodyText, String.join, (handlers_ret d _ val con).2]

/-- C3 at the body `x`: a GET is answered with `xx` and a request with a
body with `xxx`, neither of which is the configured body. -/
theorem notFound_body_repeated_witness :
    ((sampleConfig 404).handleGet (web.newContext sampleRequest [("x", "1")]) "" emptyConsole).body
        = "x" ++ "x" ∧
      ((sampleConfig 404).handleBody (web.newContext sampleRequest [("x", "1")]) ""
        emptyConsole).body = "x" ++ "x" ++ "x" ∧
      "x" ++ "x" ≠ (sampleConfig 404).resp ∧ "x" ++ "x" ++ "x" ≠ (sampleConfig 404).resp :=
  ⟨(notFound_body_repeated (sampleConfig 404) sampleRequest [("x", "1")] "" emptyConsole rfl).1,
    (notFound_body_repeated (sampleConfig 404) sampleRequest [("x", "1")] "" emptyConsole rfl).2,
    by decide, by decide⟩

/-- C5: with `respCode` one of 301, 302, 304, 401 and 403 both handlers
still return the configured body, and the body text they supply for the
request is exactly the configured body (the dispatch call itself is passed
none). -/
theorem dispatch_without_body_returns_resp (d : HTTPDump) (req : http.Request)
    (params : List (String × String)) (val : String) (con : Console)
    (h : d.respCode ∈ [301, 302, 304, 401, 403]) :
    (d.handleGet (web.newContext req params) val con).ret = d.resp ∧
      (d.handleGet (web.newContext req params) val con).body = d.resp ∧
      (d.handleBody (web.newContext req params) val con).ret = d.resp ∧
      (d.handleBody (web.newContext req params) val con).body = d.resp := by
  have h200 : d.respCode ≠ 200 := by
    intro h0
    rw [h0] at h
    revert h
    decide
  have hcall : d.dispatchCall.bodyText = "" := by
    simp only [List.mem_cons, List.mem_singleton, List.not_mem_nil, or_false] at h
    rcases h with h | h | h | h | h <;> simp [HTTPDump.dispatchCall, h, web.Call.bodyText]
  refine ⟨rfl, ?_, rfl, ?_⟩
  · simp [Result.body, handleGet_calls d _ val con h200, hcall, web.newContext, String.join,
      (handlers_ret d _ val con).1]
  · have hset : (web.Call.SetHeader "Content-Type" "application/json;charset=utf-8"
        true).bodyText = "" := rfl
    simp [Result.body, handleBody_calls d _ val con h200, hcall, hset, web.newContext,
      String.join, (handlers_ret d _ val con).2]

/-- C5 at status 403 and the body `x`: both handlers call `Forbidden` and
return `x`, which is not the empty body. -/
theorem dispatch_without_body_returns_resp_witness :
    ((sampleConfig 403).handleGet (web.newContext sampleRequest [("x", "1")]) "" emptyConsole).ret
        = "x" ∧
      ((sampleConfig 403).handleBody (web.newContext sampleRequest [("x", "1")]) ""
        emptyConsole).ret = "x" ∧
      ((sampleConfig 403).handleGet (web.newContext sampleRequest [("x", "1")]) ""
        emptyConsole).ctx.calls = [web.Call.Forbidden] ∧
      "x" ≠ "" :=
  ⟨(dispatch_without_body_returns_resp (sampleConfig 403) sampleRequest [("x", "1")] ""
      emptyConsole (by decide)).1,
    (dispatch_without_body_returns_resp (sampleConfig 403) sampleRequest [("x", "1")] ""
      emptyConsole (by decide)).2.2.1,
    by rfl, by decide⟩

/-- C9: with a status other than 200 the calls of `handleBody` on a fresh
context are the dispatch call, the `SetHeader` call for the content type,
and the dispatch call again; the content type is set after the response
was started, and no header set by the handler is in effect on it. -/
theorem handleBody_content_type_after_dispatch (d : HTTPDump) (req : http.Request)
    (params : List (String × String)) (val : String) (con : Console) (h : d.respCode ≠ 200) :
    (d.handleBody (web.newContext req params) val con).ctx.calls =
      [d.dispatchCall,
        web.Call.SetHeader "Content-Type" "application/json;charset=utf-8" true,
        d.dispatchCall] ∧
      d.dispatchCall.isDispatch = true ∧
      (d.handleBody (web.newContext req params) val con).header = [] := by
  have hcalls := handleBody_calls d (web.newContext req params) val con h
  have hd := dispatchCall_isDispatch d
  refine ⟨by simpa [web.newContext] using hcalls, hd, ?_⟩
  rw [Result.header, hcalls]
  cases hc : d.dispatchCall with
  | SetHeader hdr v u => rw [hc] at hd; exact absurd hd (by simp [web.Call.isDispatch])
  | _ => rfl

/-- C9 at status 404: the first call of a POST is `NotFound`, and the
content type is not among the headers in effect. -/
theorem handleBody_content_type_after_dispatch_witness :
    ((sampleConfig 404).handleBody (web.newContext sampleRequest [("x", "1")]) ""
        emptyConsole).ctx.calls =
      [web.Call.NotFound "x",
        web.Call.SetHeader "Content-Type" "application/json;charset=utf-8" true,
        web.Call.NotFound "x"] ∧
      http.Header.Values ((sampleConfig 404).handleBody (web.newContext sampleRequest [("x", "1")])
        "" emptyConsole).header "Content-Type" = [] :=
  ⟨(handleBody_content_type_after_dispatch (sampleConfig 404) sampleRequest [("x", "1")] ""
      emptyConsole (by decide)).1,
    by rw [(handleBody_content_type_after_dispatch (sampleConfig 404) sampleRequest [("x", "1")]
      "" emptyConsole (by decide)).2.2]; rfl⟩

/-- With status 200 the content type set by `handleBody` is in effect. -/
theorem handleBody_content_type_ok (d : HTTPDump) (req : http.Request)
    (params : List (String × String)) (val : String) (con : Console) (h : d.respCode = 200) :
    (d.handleBody (web.newContext req params) val con).header
      = [("Content-Type", ["application/json;charset=utf-8"])] := by
  rw [Result.header, handleBody_calls_ok d _ val con h]
  rfl

/-! ### The query string -/

/-- The accumulating join of `String.intercalate`, followed by one more
separator, is the left fold that writes every item with a separator after
it. -/
theorem intercalate_go_append (sep : String) (items : List String) (acc : String) :
    String.intercalate.go acc sep items ++ sep
      = items.foldl (fun b x => b ++ (x ++ sep)) (acc ++ sep) := by
  induction items generalizing acc with
  | nil => rfl
  | cons x rest ih =>
    simp only [String.intercalate.go, List.foldl_cons]
    rw [ih]
    simp [String.append_assoc]

/-- For a non-empty mapping the buffer of `getParams` holds the joined
pairs and one trailing `&`. -/
theorem buffer_eq_joinedQuery (p : String × String) (rest : List (String × String)) :
    (p :: rest).foldl (fun b kv => b ++ (kv.1 ++ "=" ++ kv.2 ++ "&")) ""
      = joinedQuery (p :: rest) ++ "&" := by
  simp only [joinedQuery, List.map_cons, String.intercalate, List.foldl_cons]
  rw [intercalate_go_append, List.foldl_map]
  simp

/-- Trimming with the cutset `&` does not see one more `&` at the end. -/
theorem Trim_append_cutset (s : String) :
    strings.Trim (s ++ "&") "&" = strings.Trim s "&" := by
  simp only [strings.Trim, String.data_append]
  congr 2
  exact List.rdropWhile_concat_pos _ _ _ (by decide)

/-- The trim leaves a string alone that neither begins nor ends with `&`. -/
theorem Trim_eq_self (s : String)
    (hfirst : ∀ c, s.data.head? = some c → c ≠ '&')
    (hlast : ∀ c, s.data.getLast? = some c → c ≠ '&') :
    strings.Trim s "&" = s := by
  cases s with
  | mk l =>
    simp only [strings.Trim] at *
    congr 1
    have h1 : l.rdropWhile (fun c => "&".data.contains c) = l := by
      rw [List.rdropWhile_eq_self_iff]
      intro hne
      have := hlast (l.getLast hne) (List.getLast?_eq_getLast _ hne)
      simpa using this
    rw [h1, List.dropWhile_eq_self_iff]
    intro hpos
    cases l with
    | nil => exact absurd hpos (by simp)
    | cons a rest =>
      have := hfirst a rfl
      simpa using this

/-- Where the joined pairs neither begin nor end with `&`, `getParams`
returns them unchanged. -/
theorem getParams_eq_joinedQuery (d : HTTPDump) (params : List (String × String))
    (hfirst : ∀ c, (joinedQuery params).data.head? = some c → c ≠ '&')
    (hlast : ∀ c, (joinedQuery params).data.getLast? = some c → c ≠ '&') :
    d.getParams params = joinedQuery params := by
  cases params with
  | nil => rfl
  | cons p rest =>
    rw [HTTPDump.getParams, buffer_eq_joinedQuery, Trim_append_cutset,
      Trim_eq_self _ hfirst hlast]

/-- C1: `getParams` returns the joined pairs with every leading and every
trailing `&` removed, also those that belong to the first key or the last
value: for the mapping with the one entry `a` to `&` the pairs join to
`a=&` and `getParams` returns `a=`; for the entry `&` to `b` they join to
`&=b` and it returns `=b`.  The empty mapping gives the empty string. -/
theorem getParams_trims_joined_pairs (d : HTTPDump) :
    (∀ params, d.getParams params = strings.Trim (joinedQuery params) "&") ∧
      d.getParams [] = "" ∧
      (joinedQuery [("a", "&")] = "a=&" ∧ d.getParams [("a", "&")] = "a=") ∧
      (joinedQuery [("&", "b")] = "&=b" ∧ d.getParams [("&", "b")] = "=b") ∧
      d.getParams [("a", "&")] ≠ joinedQuery [("a", "&")] := by
  refine ⟨?_, rfl, ⟨by decide, ?_⟩, ⟨by decide, ?_⟩, ?_⟩
  rotate_left
  · simp only [HTTPDump.getParams]; decide
  · simp only [HTTPDump.getParams]; decide
  · simp only [HTTPDump.getParams]; decide
  intro params
  cases params with
  | nil => rfl
  | cons p rest => rw [HTTPDump.getParams, buffer_eq_joinedQuery, Trim_append_cutset]

/-! ### Startup -/

/-- When no validation fails, `main` calls `start` on the configuration
built from the flags. -/
theorem main_started (f : Flags) (defaults : String) (env : Env) (d : HTTPDump) (s : Started)
    (h : main f defaults env = MainResult.started d s) :
    (f.tls = true → f.tlsKey ≠ "" ∧ f.tlsCert ≠ "") ∧
      (f.responseCode = 301 ∨ f.responseCode = 302 → f.redirect ≠ "") ∧
      d = { resp := f.response, respFile := f.responseFile,
            respCode := if f.redirect ≠ "" then 302 else f.responseCode,
            redirect := f.redirect, tls := f.tls, tlsKey := f.tlsKey, tlsCert := f.tlsCert,
            ip := f.ip, port := f.port } ∧
      s = d.start env := by
  unfold main at h
  by_cases h1 : (f.tls && (f.tlsKey == "" || f.tlsCert == "")) = true
  · rw [if_pos h1] at h
    cases h
  · rw [if_neg h1] at h
    by_cases h2 : ((f.responseCode == 301 || f.responseCode == 302) && f.redirect == "") = true
    · rw [if_pos h2] at h
      cases h
    · rw [if_neg h2] at h
      simp only [MainResult.started.injEq] at h
      obtain ⟨hd, hs⟩ := h
      refine ⟨?_, ?_, ?_, ?_⟩
      · intro ht
        simpa [ht] using h1
      · intro hc
        rcases hc with hc | hc <;> simpa [hc] using h2
      · rw [← hd]
        simp
      · rw [← hs, ← hd]

/-- Whenever neither validation fails, `main` does call `start`. -/
theorem main_reaches_start (f : Flags) (defaults : String) (env : Env)
    (htls : f.tls = true → f.tlsKey ≠ "" ∧ f.tlsCert ≠ "")
    (hcode : f.responseCode = 301 ∨ f.responseCode = 302 → f.redirect ≠ "") :
    ∃ d, main f defaults env = MainResult.started d (d.start env) := by
  have h1 : ¬ (f.tls && (f.tlsKey == "" || f.tlsCert == "")) = true := by
    intro h
    simp only [Bool.and_eq_true, Bool.or_eq_true, beq_iff_eq] at h
    obtain ⟨ht, hk⟩ := h
    rcases hk with hk | hk
    · exact (htls ht).1 hk
    · exact (htls ht).2 hk
  have h2 : ¬ ((f.responseCode == 301 || f.responseCode == 302) && f.redirect == "")
      = true := by
    intro h
    simp only [Bool.and_eq_true, Bool.or_eq_true, beq_iff_eq] at h
    exact hcode h.1 h.2
  unfold main
  rw [if_neg h1, if_neg h2]
  exact ⟨_, rfl⟩

/-- C6: `main` calls `start` only on a configuration in which a status of
301 or 302 comes with a non-empty redirect target and enabled TLS comes
with non-empty certificate and key paths; and whenever TLS is enabled with
an empty key or certificate path, or the response-code flag is 301 or 302
with an empty redirect, `main` ends in `log.Fatal` without calling
`start`. -/
theorem main_start_config_valid (f : Flags) (defaults : String) (env : Env) :
    (∀ d s, main f defaults env = MainResult.started d s →
      (d.respCode = 301 ∨ d.respCode = 302 → d.redirect ≠ "") ∧
      (d.tls = true → d.tlsCert ≠ "" ∧ d.tlsKey ≠ "")) ∧
    ((f.tls = true ∧ (f.tlsKey = "" ∨ f.tlsCert = "")) ∨
        ((f.responseCode = 301 ∨ f.responseCode = 302) ∧ f.redirect = "") →
      ∃ printed msg, main f defaults env = MainResult.fatal printed msg) := by
  constructor
  · intro d s h
    obtain ⟨htls, hcode, hd, _⟩ := main_started f defaults env d s h
    subst hd
    constructor
    · intro hc
      by_cases hr : f.redirect = ""
      · simp only [hr, ne_eq, not_true_eq_false, if_false] at hc
        exact absurd hr (hcode hc)
      · exact hr
    · intro ht
      exact ⟨(htls ht).2, (htls ht).1⟩
  · intro hbad
    unfold main
    rcases hbad with ⟨ht, hk⟩ | ⟨hc, hr⟩
    · have h1 : (f.tls && (f.tlsKey == "" || f.tlsCert == "")) = true := by
        rcases hk with hk | hk <;> simp [ht, hk]
      rw [if_pos h1]
      exact ⟨_, _, rfl⟩
    · have h2 : ((f.responseCode == 301 || f.responseCode == 302) && f.redirect == "")
          = true := by
        rcases hc with hc | hc <;> simp [hc, hr]
      by_cases h1 : (f.tls && (f.tlsKey == "" || f.tlsCert == "")) = true
      · rw [if_pos h1]
        exact ⟨_, _, rfl⟩
      · rw [if_neg h1, if_pos h2]
        exact ⟨_, _, rfl⟩

/-- With `sampleFlags`, `main` reaches `start` on `sampleFlagsConfig`. -/
theorem main_sampleFlags :
    main sampleFlags "usage" sampleEnv
      = MainResult.started sampleFlagsConfig (sampleFlagsConfig.start sampleEnv) := by
  rfl

/-- C6 at three flag sets: `sampleFlags` reaches `start` with a redirect
target and both TLS paths; TLS without a certificate path is fatal; status
302 without a redirect target is fatal. -/
theorem main_start_config_valid_witness :
    (sampleFlagsConfig.redirect ≠ "" ∧
      sampleFlagsConfig.tlsCert ≠ "" ∧ sampleFlagsConfig.tlsKey ≠ "") ∧
    (∃ printed msg, main { sampleFlags with tlsCert := "" } "usage" sampleEnv
      = MainResult.fatal printed msg) ∧
    (∃ printed msg, main { sampleFlags with responseCode := 302, redirect := "" } "usage"
      sampleEnv = MainResult.fatal printed msg) :=
  ⟨⟨((main_start_config_valid sampleFlags "usage" sampleEnv).1 _ _ main_sampleFlags).1
        (Or.inr rfl),
      ((main_start_config_valid sampleFlags "usage" sampleEnv).1 _ _ main_sampleFlags).2 rfl⟩,
    (main_start_config_valid { sampleFlags with tlsCert := "" } "usage" sampleEnv).2
      (Or.inl ⟨rfl, Or.inr rfl⟩),
    (main_start_config_valid { sampleFlags with responseCode := 302, redirect := "" } "usage"
      sampleEnv).2 (Or.inr ⟨Or.inr rfl, rfl⟩)⟩

/-- C7: whenever the TLS flags pass validation and the redirect flag is
non-empty, `main` does build a configuration and call `start` on it, for
every value of the response-code flag (301 and the default 200 included),
and that configuration has status 302 and the redirect flag as its target;
whenever the redirect flag is empty and the response-code flag is neither
301 nor 302, `main` builds a configuration whose status is the value of the
response-code flag.  In every case, the configuration on which `main` calls
`start` has status 302 when the redirect flag is non-empty and the value of
the response-code flag when it is empty. -/
theorem main_respCode (f : Flags) (defaults : String) (env : Env) :
    ((f.tls = true → f.tlsKey ≠ "" ∧ f.tlsCert ≠ "") → f.redirect ≠ "" →
      ∃ d, main f defaults env = MainResult.started d (d.start env) ∧
        d.respCode = 302 ∧ d.redirect = f.redirect) ∧
    ((f.tls = true → f.tlsKey ≠ "" ∧ f.tlsCert ≠ "") → f.redirect = "" →
      f.responseCode ≠ 301 → f.responseCode ≠ 302 →
      ∃ d, main f defaults env = MainResult.started d (d.start env) ∧
        d.respCode = f.responseCode) ∧
    (∀ d s, main f defaults env = MainResult.started d s →
      (f.redirect ≠ "" → d.respCode = 302) ∧
      (f.redirect = "" → d.respCode = f.responseCode)) := by
  have hcond : ∀ d s, main f defaults env = MainResult.started d s →
      (f.redirect ≠ "" → d.respCode = 302) ∧
      (f.redirect = "" → d.respCode = f.responseCode) := by
    intro d s h
    obtain ⟨_, _, hd, _⟩ := main_started f defaults env d s h
    subst hd
    constructor
    · intro hr
      simp [hr]
    · intro hr
      simp [hr]
  refine ⟨?_, ?_, hcond⟩
  · intro htls hr
    obtain ⟨d, hd⟩ := main_reaches_start f defaults env htls (fun _ => hr)
    obtain ⟨_, _, hcfg, _⟩ := main_started f defaults env d _ hd
    refine ⟨d, hd, (hcond d _ hd).1 hr, ?_⟩
    rw [hcfg]
  · intro htls hr h301 h302
    obtain ⟨d, hd⟩ := main_reaches_start f defaults env htls
      (fun hc => absurd hc (by rintro (h | h); exact h301 h; exact h302 h))
    exact ⟨d, hd, (hcond d _ hd).2 hr⟩

/-- C7 at three flag sets, each with TLS and both paths: `response-code =
301` with a redirect target and `response-code = 200` with a redirect
target both make `main` call `start` with status 302; `response-code = 418`
without a redirect target makes it call `start` with status 418. -/
theorem main_respCode_witness :
    (∃ d, main sampleFlags "usage" sampleEnv = MainResult.started d (d.start sampleEnv) ∧
      d.respCode = 302 ∧ d.redirect = "http://e/") ∧
    (∃ d, main { sampleFlags with responseCode := 200 } "usage" sampleEnv
        = MainResult.started d (d.start sampleEnv) ∧
      d.respCode = 302 ∧ d.redirect = "http://e/") ∧
    (∃ d, main { sampleFlags with responseCode := 418, redirect := "" } "usage" sampleEnv
        = MainResult.started d (d.start sampleEnv) ∧
      d.respCode = 418) :=
  ⟨(main_respCode sampleFlags "usage" sampleEnv).1 (fun _ => by decide) (by decide),
    (main_respCode { sampleFlags with responseCode := 200 } "usage" sampleEnv).1
      (fun _ => by decide) (by decide),
    (main_respCode { sampleFlags with responseCode := 418, redirect := "" } "usage"
      sampleEnv).2.1 (fun _ => by decide) rfl (by decide) (by decide)⟩

/-! ### The response file -/

/-- A Go string has positive length exactly when it is not empty. -/
theorem length_pos_iff_ne_empty (s : String) : s.length > 0 ↔ s ≠ "" := by
  cases s with
  | mk l =>
    cases l with
    | nil => simp [String.length]
    | cons a rest =>
      simp only [String.length, List.length_cons, gt_iff_lt, Nat.zero_lt_succ, ne_eq, true_iff]
      intro h
      have := congrArg String.data h
      simp at this

/-- With a readable response file, `start` registers the handlers of the
configuration whose body is the file content. -/
theorem start_routes_of_file (d : HTTPDump) (env : Env) (file : String)
    (hpath : d.respFile ≠ "") (hread : env.ReadFile d.respFile = Except.ok file) :
    (d.start env).routes = routesOf { d with resp := file } := by
  have hlen : d.respFile.length > 0 := (length_pos_iff_ne_empty _).2 hpath
  simp only [HTTPDump.start, HTTPDump.getFile, hlen, hread, if_true, routesOf]
  split_ifs
  · split
    · rfl
    · split
      · rfl
      · split <;> rfl
  · rfl

/-- Without a response file, `start` registers the handlers of the
configuration as it is. -/
theorem start_routes_of_flag (d : HTTPDump) (env : Env) (hpath : d.respFile = "") :
    (d.start env).routes = routesOf d := by
  have hlen : ¬ d.respFile.length > 0 := by rw [hpath]; decide
  simp only [HTTPDump.start, HTTPDump.getFile, hlen, if_false, routesOf]
  split_ifs
  · split
    · rfl
    · split
      · rfl
      · split <;> rfl
  · rfl

/-- The handlers of the first four registrations return the body of the
configuration, the fifth returns the empty string. -/
theorem routesOf_ret (d : HTTPDump) (rt : Route) (hrt : rt ∈ routesOf d) (ctx : web.Context)
    (val : String) (con : Console) :
    (rt.method ≠ "OPTIONS" → (rt.handler ctx val con).ret = d.resp) ∧
      (rt.method = "OPTIONS" → (rt.handler ctx val con).ret = "") := by
  simp only [routesOf, List.mem_cons, List.mem_singleton, List.not_mem_nil, or_false] at hrt
  rcases hrt with h | h | h | h | h <;> subst h
  · exact ⟨fun _ => rfl, fun hm => absurd hm (by simp)⟩
  · exact ⟨fun _ => rfl, fun hm => absurd hm (by simp)⟩
  · exact ⟨fun _ => rfl, fun hm => absurd hm (by simp)⟩
  · exact ⟨fun _ => rfl, fun hm => absurd hm (by simp)⟩
  · exact ⟨fun hm => absurd rfl hm, fun _ => rfl⟩

/-- C10 as stated fails on the OPTIONS registration: with the response file
holding `file` and the response flag `x`, the four handlers for GET, POST,
PUT and DELETE return `file`, and the handler registered for OPTIONS
returns the empty string, so not every registered handler returns the file
content. -/
theorem start_options_route_empty :
    ((sampleFileConfig.start sampleEnv).routes.map
        (fun rt => (rt.method, (rt.handler sampleContext "" emptyConsole).ret))
      = [("GET", "file"), ("POST", "file"), ("PUT", "file"), ("DELETE", "file"),
          ("OPTIONS", "")]) ∧
    ¬ (∀ rt ∈ (sampleFileConfig.start sampleEnv).routes,
        (rt.handler sampleContext "" emptyConsole).ret = "file") := by
  have hroutes := start_routes_of_file sampleFileConfig sampleEnv "file" (by decide) rfl
  rw [hroutes]
  constructor
  · rfl
  · intro hall
    have h5 := hall
      { method := "OPTIONS", pattern := "/(.*)",
        handler := HTTPDump.handleCORS { sampleFileConfig with resp := "file" } }
      (by simp [routesOf])
    exact absurd (show ("" : String) = "file" from h5) (by decide)

/-- C10, amended: `start` registers handlers for GET, POST, PUT, DELETE and
OPTIONS, in this order.  With a non-empty, readable response-file path the
handlers for GET, POST, PUT and DELETE return the content of the file for
every request and every value of the response flag; with an empty path
they return the response flag value.  The OPTIONS handler returns the empty
string in both cases. -/
theorem start_routes_return_resolved_body (d : HTTPDump) (env : Env) :
    (∀ file, d.respFile ≠ "" → env.ReadFile d.respFile = Except.ok file →
      (d.start env).routes.map Route.method = ["GET", "POST", "PUT", "DELETE", "OPTIONS"] ∧
      ∀ rt ∈ (d.start env).routes, ∀ ctx val con,
        (rt.method ≠ "OPTIONS" → (rt.handler ctx val con).ret = file) ∧
        (rt.method = "OPTIONS" → (rt.handler ctx val con).ret = "")) ∧
    (d.respFile = "" →
      (d.start env).routes.map Route.method = ["GET", "POST", "PUT", "DELETE", "OPTIONS"] ∧
      ∀ rt ∈ (d.start env).routes, ∀ ctx val con,
        (rt.method ≠ "OPTIONS" → (rt.handler ctx val con).ret = d.resp) ∧
        (rt.method = "OPTIONS" → (rt.handler ctx val con).ret = "")) := by
  constructor
  · intro file hpath hread
    rw [start_routes_of_file d env file hpath hread]
    exact ⟨rfl, fun rt hrt ctx val con => routesOf_ret _ rt hrt ctx val con⟩
  · intro hpath
    rw [start_routes_of_flag d env hpath]
    exact ⟨rfl, fun rt hrt ctx val con => routesOf_ret _ rt hrt ctx val con⟩

/-- C10, amended, at the response flag `x`: with the response file
`body.txt` holding `file` the registered handlers return `file` (OPTIONS:
the empty string), and without a response file they return `x`. -/
theorem start_routes_return_resolved_body_witness :
    ((sampleFileConfig.start sampleEnv).routes.map
        Route.method = ["GET", "POST", "PUT", "DELETE", "OPTIONS"] ∧
      ∀ rt ∈ (sampleFileConfig.start sampleEnv).routes,
        ∀ ctx val con,
          (rt.method ≠ "OPTIONS" → (rt.handler ctx val con).ret = "file") ∧
          (rt.method = "OPTIONS" → (rt.handler ctx val con).ret = "")) ∧
    (((sampleConfig 200).start sampleEnv).routes.map Route.method
        = ["GET", "POST", "PUT", "DELETE", "OPTIONS"] ∧
      ∀ rt ∈ ((sampleConfig 200).start sampleEnv).routes, ∀ ctx val con,
        (rt.method ≠ "OPTIONS" → (rt.handler ctx val con).ret = "x") ∧
        (rt.method = "OPTIONS" → (rt.handler ctx val con).ret = "")) :=
  ⟨(start_routes_return_resolved_body sampleFileConfig sampleEnv).1 "file" (by decide) rfl,
    (start_routes_return_resolved_body (sampleConfig 200) sampleEnv).2 rfl⟩

end httpdump
